import Mathlib

/-!
Shallow embedding of the event capacity and registration engine of the
Pride-unity backend (src/controllers/eventController.js together with the
schemas in src/models/Event.js and src/models/EventRegistration.js).

Modelling conventions:
* MongoDB documents become Lean structures; the database becomes a `State`
  holding the list of events and the list of registrations.
* `currentAttendees` is an `Int`: the Event schema declares it as a plain
  Number with default 0 and no `min` validator, and the controller mutates
  it only through `findByIdAndUpdate` with a bare `$inc`, which bypasses
  validators, so negative values are representable exactly as in MongoDB.
* Fields that never influence the control flow of the claims (title, slug,
  dates, attendee names, phone, ticketId, timestamps) are omitted; the spec
  itself notes they do not affect capacity logic.
* HTTP responses are modelled as outcome inductives: 404 becomes `notFound`,
  the various 400 responses become dedicated constructors, 200/201 become
  the success constructors carrying the created data.
-/

namespace PrideUnity

/-- Event lifecycle status, from the enum in src/models/Event.js. -/
inductive EventStatus
  | draft
  | published
  | cancelled
  | completed
  deriving DecidableEq

/-- Registration status, from the enum in src/models/EventRegistration.js;
the schema default is `confirmed`. -/
inductive RegStatus
  | confirmed
  | cancelled
  | waitlisted
  deriving DecidableEq

/-- Payment status, from the enum in src/models/EventRegistration.js;
the schema default is `pending`. -/
inductive PayStatus
  | pending
  | paid
  | failed
  | refunded
  deriving DecidableEq

/-- An event document (src/models/Event.js), restricted to the fields the
registration engine reads or writes. `maxAttendees` defaults to `null`
(`none`); `currentAttendees` is an unconstrained Number starting at 0. -/
structure Event where
  id : Nat
  status : EventStatus
  registrationOpen : Bool
  maxAttendees : Option Nat
  currentAttendees : Int
  isFree : Bool
  price : Nat
  featured : Bool
  deriving DecidableEq

/-- A registration document (src/models/EventRegistration.js), restricted to
the fields the engine reads or writes. `email` stands for the whole
attendee identity since only it enters any decision. -/
structure Registration where
  id : Nat
  event : Nat
  email : String
  status : RegStatus
  paymentStatus : PayStatus
  amount : Nat
  deriving DecidableEq

/-- The database: both collections plus a counter supplying fresh
registration ids (standing in for MongoDB ObjectId generation). -/
structure State where
  events : List Event
  registrations : List Registration
  nextRegId : Nat
  deriving DecidableEq

/-- Point lookup `Event.findById(id)`. -/
def findEvent (s : State) (id : Nat) : Option Event :=
  s.events.find? (fun e => e.id == id)

/-- The duplicate-registration lookup
`EventRegistration.findOne({ event: id, email })` from line 336 of the
controller: it matches on event and email only, with no condition on the
status of the registration. -/
def findExistingRegistration (s : State) (id : Nat) (email : String) :
    Option Registration :=
  s.registrations.find? (fun r => r.event == id && r.email == email)

/-- Point lookup `EventRegistration.findById(id)`. -/
def findRegistrationById (s : State) (rid : Nat) : Option Registration :=
  s.registrations.find? (fun r => r.id == rid)

/-- The capacity test on line 345:
`event.maxAttendees && event.currentAttendees >= event.maxAttendees`.
JavaScript truthiness makes both `null` and `0` falsy, so a stored
`maxAttendees` of 0 would behave like unlimited capacity (the schema
validator `min: 1` keeps 0 out of the store). -/
def isFull (e : Event) : Bool :=
  match e.maxAttendees with
  | none => false
  | some m => m != 0 && decide ((m : Int) ≤ e.currentAttendees)

/-- The counter mutation
`Event.findByIdAndUpdate(id, { $inc: { currentAttendees: d } })`
(lines 381 and 518): a bare increment with no validator and no floor. -/
def incAttendees (s : State) (id : Nat) (d : Int) : State :=
  { s with
    events := s.events.map (fun e =>
      if e.id == id then { e with currentAttendees := e.currentAttendees + d }
      else e) }

/-- Insertion performed by `EventRegistration.create`, with the fresh-id
counter advanced. -/
def addRegistration (s : State) (r : Registration) : State :=
  { s with
    registrations := s.registrations ++ [r],
    nextRegId := s.nextRegId + 1 }

/-- Outcome of `registerForEvent`: 404, the three 400 responses, or a 201
carrying the created registration and the waitlisted flag the response
body exposes. -/
inductive RegisterOutcome
  | notFound
  | notPublished
  | registrationClosed
  | alreadyRegistered
  | created (r : Registration) (isWaitlisted : Bool)
  deriving DecidableEq

/-- The document built by the `EventRegistration.create` call on lines
347-356 (the waitlist path): the body passes a waitlisted `status` and
`amount` but not `paymentStatus`, which therefore takes the schema
default `pending`, even for free events. -/
def waitlistedRegistration (s : State) (id : Nat) (email : String)
    (event : Event) : Registration :=
  { id := s.nextRegId, event := id, email := email,
    status := RegStatus.waitlisted,
    paymentStatus := PayStatus.pending,
    amount := if event.isFree then 0 else event.price }

/-- The document built by the `EventRegistration.create` call on lines
369-378 (the confirmed path): the body passes `amount` and
`paymentStatus` but not `status`, which therefore takes the schema
default `confirmed`. -/
def confirmedRegistration (s : State) (id : Nat) (email : String)
    (event : Event) : Registration :=
  { id := s.nextRegId, event := id, email := email,
    status := RegStatus.confirmed,
    paymentStatus := if event.isFree then PayStatus.paid else PayStatus.pending,
    amount := if event.isFree then 0 else event.price }

/-- The body of `registerForEvent` (controller lines 320-387) after the
initial `Event.findById` await has resolved to `event`. The capacity
decision reads the snapshot `event`, while the duplicate lookup and all
writes hit the current state `s`; keeping the snapshot as a separate
argument reflects that every `await` is a point where other requests can
run. Only the confirmed branch increments the counter. -/
def registerCont (s : State) (id : Nat) (email : String) (event : Event) :
    State × RegisterOutcome :=
  if event.status != EventStatus.published then (s, RegisterOutcome.notPublished)
  else if !event.registrationOpen then (s, RegisterOutcome.registrationClosed)
  else if (findExistingRegistration s id email).isSome then
    (s, RegisterOutcome.alreadyRegistered)
  else if isFull event then
    (addRegistration s (waitlistedRegistration s id email event),
      RegisterOutcome.created (waitlistedRegistration s id email event) true)
  else
    (incAttendees (addRegistration s (confirmedRegistration s id email event)) id 1,
      RegisterOutcome.created (confirmedRegistration s id email event) false)

/-- `registerForEvent` (controller lines 305-408) run to completion with no
interleaving: resolve the event, then run the continuation on the same
state. -/
def registerForEvent (s : State) (id : Nat) (email : String) :
    State × RegisterOutcome :=
  match findEvent s id with
  | none => (s, RegisterOutcome.notFound)
  | some event => registerCont s id email event

/-- Outcome of `cancelRegistration`: 404 or the 200 success response. The
controller has no other exit on an existing registration. -/
inductive CancelOutcome
  | notFound
  | ok
  deriving DecidableEq

/-- The status write setting `registration.status` to cancelled followed by
`registration.save()` (lines 514-515). -/
def setRegistrationCancelled (s : State) (rid : Nat) : State :=
  { s with
    registrations := s.registrations.map (fun r =>
      if r.id == rid then { r with status := RegStatus.cancelled } else r) }

/-- `cancelRegistration` (controller lines 502-532): resolve the
registration, set its status to cancelled, then unconditionally decrement
the counter of the owning event. The code inspects neither the prior status of
the registration (confirmed, waitlisted or already cancelled) nor the
value of the counter before decrementing. -/
def cancelRegistration (s : State) (rid : Nat) : State × CancelOutcome :=
  match findRegistrationById s rid with
  | none => (s, CancelOutcome.notFound)
  | some r =>
    (incAttendees (setRegistrationCancelled s rid) r.event (-1), CancelOutcome.ok)

/-- A patch for the generic update endpoint, covering the modelled fields.
`maxAttendees` patched to `some none` clears the bound; every field left
`none` is untouched, mirroring `$set` semantics of `findByIdAndUpdate`
with a partial body. -/
structure EventPatch where
  status : Option EventStatus := none
  registrationOpen : Option Bool := none
  maxAttendees : Option (Option Nat) := none
  currentAttendees : Option Int := none
  isFree : Option Bool := none
  price : Option Nat := none
  featured : Option Bool := none
  deriving DecidableEq

/-- Field-wise application of a patch, as `findByIdAndUpdate(id, req.body)`
does: every field present in the body overwrites the stored value,
`currentAttendees` included. -/
def applyPatch (e : Event) (p : EventPatch) : Event :=
  { e with
    status := p.status.getD e.status,
    registrationOpen := p.registrationOpen.getD e.registrationOpen,
    maxAttendees := p.maxAttendees.getD e.maxAttendees,
    currentAttendees := p.currentAttendees.getD e.currentAttendees,
    isFree := p.isFree.getD e.isFree,
    price := p.price.getD e.price,
    featured := p.featured.getD e.featured }

/-- The update validators that `runValidators: true` runs on the patched
paths: among the modelled fields only `maxAttendees` carries one
(`min: 1`, skipped on null). `currentAttendees` has no validator. -/
def patchValid (p : EventPatch) : Bool :=
  match p.maxAttendees with
  | some (some 0) => false
  | _ => true

/-- Outcome of `updateEvent`: 404, the 400 validation response, or the 200
response carrying the updated document. -/
inductive UpdateOutcome
  | notFound
  | validationFailed
  | updated (e : Event)
  deriving DecidableEq

/-- `updateEvent` (controller lines 210-257):
`Event.findByIdAndUpdate(req.params.id, req.body, { new: true,
runValidators: true })`. The request body is applied as-is; no field is
filtered out or rejected, so a body containing `currentAttendees`
overwrites the stored counter. -/
def updateEvent (s : State) (id : Nat) (p : EventPatch) :
    State × UpdateOutcome :=
  match findEvent s id with
  | none => (s, UpdateOutcome.notFound)
  | some e =>
    if !patchValid p then (s, UpdateOutcome.validationFailed)
    else
      ({ s with
          events := s.events.map (fun e0 =>
            if e0.id == id then applyPatch e0 p else e0) },
        UpdateOutcome.updated (applyPatch e p))

/-- String form of an event status, as stored in MongoDB and compared
against the query parameter. -/
def eventStatusString : EventStatus → String
  | EventStatus.draft => "draft"
  | EventStatus.published => "published"
  | EventStatus.cancelled => "cancelled"
  | EventStatus.completed => "completed"

/-- Query construction of `getEvents` (controller lines 67-79): the status
parameter defaults to the string "published"; unless it equals "all" it is
added to the filter verbatim. Returns the status filter, `none` meaning no
status condition. -/
def getEventsStatusFilter (statusParam : Option String) : Option String :=
  let status := statusParam.getD "published"
  if status == "all" then none else some status

/-- The `Event.find(query)` of `getEvents` (controller lines 65-87),
modelled as the filter the constructed query induces on the events
collection (sorting, pagination and field projection drop or reorder
results but add no further condition, and the claims are about the
filter). The featured parameter adds `featured: true` exactly when it is
the string "true". -/
def getEvents (s : State) (statusParam : Option String)
    (featuredParam : Option String) : List Event :=
  s.events.filter (fun e =>
    (match getEventsStatusFilter statusParam with
     | none => true
     | some st => eventStatusString e.status == st)
    && (if featuredParam == some "true" then e.featured else true))

/-- Route registration for GET /api/events (src/routes/eventRoutes.js line
24): the `router.get` call mounting `eventController.getEvents` carries no `protect`
middleware, unlike the admin routes. -/
def getEventsRequiresAuth : Bool := false

/-- A serial operation against the engine, for traces of the two
public mutating endpoints. -/
inductive Op
  | register (eventId : Nat) (email : String)
  | cancel (regId : Nat)
  deriving DecidableEq

/-- Run one operation to completion, keeping the resulting state. -/
def applyOp (s : State) : Op → State
  | Op.register id email => (registerForEvent s id email).1
  | Op.cancel rid => (cancelRegistration s rid).1

/-- Run a list of operations serially, each completing before the next
starts. -/
def runOps (s : State) (ops : List Op) : State :=
  ops.foldl applyOp s

/-- Number of registrations for the given event whose status is
confirmed. -/
def confirmedCount (s : State) (eid : Nat) : Nat :=
  (s.registrations.filter (fun r =>
    r.event == eid && r.status == RegStatus.confirmed)).length

/-- The stored counter of the given event, when it exists. -/
def eventCurrent (s : State) (eid : Nat) : Option Int :=
  (findEvent s eid).map (fun e => e.currentAttendees)

/-! Concrete fixtures used to evaluate the engine on specific inputs. -/

/-- A published, open, free event with capacity 1 and an empty counter. -/
def evCap1 : Event :=
  { id := 0, status := EventStatus.published, registrationOpen := true,
    maxAttendees := some 1, currentAttendees := 0, isFree := true,
    price := 0, featured := false }

/-- Fresh database holding only `evCap1`. -/
def sCap1 : State := { events := [evCap1], registrations := [], nextRegId := 0 }

/-- A confirmed registration for `evCap1` occupying its single seat. -/
def regA : Registration :=
  { id := 0, event := 0, email := "a@x.c", status := RegStatus.confirmed,
    paymentStatus := PayStatus.paid, amount := 0 }

/-- A waitlisted registration for `evCap1`, created once the event was
full. -/
def regB : Registration :=
  { id := 1, event := 0, email := "b@x.c", status := RegStatus.waitlisted,
    paymentStatus := PayStatus.pending, amount := 0 }

/-- The full event: one confirmed and one waitlisted registration, counter
at capacity. This is exactly the state `runOps sCap1 [register a,
register b]` produces. -/
def sFull : State :=
  { events := [{ evCap1 with currentAttendees := 1 }],
    registrations := [regA, regB], nextRegId := 2 }

/-- A registration that has already been cancelled. -/
def regC : Registration :=
  { id := 0, event := 0, email := "a@x.c", status := RegStatus.cancelled,
    paymentStatus := PayStatus.paid, amount := 0 }

/-- A database whose only registration for the published, open event is the
cancelled `regC`; the event has spare capacity. -/
def sCancelled : State :=
  { events := [{ evCap1 with maxAttendees := some 5, currentAttendees := 3 }],
    registrations := [regC], nextRegId := 1 }

/-- Events of three different statuses, for exercising the listing
filter. -/
def sMixed : State :=
  { events :=
      [{ id := 0, status := EventStatus.draft, registrationOpen := true,
         maxAttendees := none, currentAttendees := 0, isFree := true,
         price := 0, featured := false },
       { id := 1, status := EventStatus.published, registrationOpen := true,
         maxAttendees := none, currentAttendees := 0, isFree := true,
         price := 0, featured := false },
       { id := 2, status := EventStatus.cancelled, registrationOpen := false,
         maxAttendees := none, currentAttendees := 0, isFree := true,
         price := 0, featured := false }],
    registrations := [], nextRegId := 0 }

/-! Helper lemmas about lookups after updates. -/

/-- Finding by id in a list mapped by an id-guarded counter update equals
updating the result of the original find. -/
theorem find?_map_incUpdate (l : List Event) (id : Nat) (d : Int) :
    (l.map (fun e =>
        if e.id == id then { e with currentAttendees := e.currentAttendees + d }
        else e)).find? (fun e => e.id == id) =
      (l.find? (fun e => e.id == id)).map
        (fun e => { e with currentAttendees := e.currentAttendees + d }) := by
  induction l with
  | nil => rfl
  | cons a l ih =>
    simp only [List.map_cons]
    by_cases h : (a.id == id) = true
    · simp [List.find?, h, -List.find?_map]
    · have hb : (a.id == id) = false := by simpa using h
      rw [if_neg h]
      simp only [List.find?, hb]
      exact ih

/-- The counter update commutes with event lookup. -/
theorem findEvent_incAttendees (s : State) (id : Nat) (d : Int) :
    findEvent (incAttendees s id d) id =
      (findEvent s id).map
        (fun e => { e with currentAttendees := e.currentAttendees + d }) :=
  find?_map_incUpdate s.events id d

/-- Inserting a registration leaves the events collection unchanged. -/
theorem findEvent_addRegistration (s : State) (r : Registration) (id : Nat) :
    findEvent (addRegistration s r) id = findEvent s id := rfl

/-- The duplicate lookup succeeds exactly when some stored registration
matches the (event, email) pair, with no condition on its status. -/
theorem findExistingRegistration_isSome_iff (s : State) (id : Nat)
    (email : String) :
    (findExistingRegistration s id email).isSome = true ↔
      ∃ r ∈ s.registrations, r.event = id ∧ r.email = email := by
  simp [findExistingRegistration, List.find?_isSome]

end PrideUnity

namespace PrideUnity

/-- C1: after the serial trace register(a), register(b), cancel(waitlisted
registration of b) on a capacity-1 event, the stored counter is 0 while one
confirmed registration remains, so currentAttendees does not equal the
number of confirmed registrations after every serial operation. -/
theorem serialTrace_counter_diverges_from_confirmed :
    eventCurrent (runOps sCap1
      [Op.register 0 "a@x.c", Op.register 0 "b@x.c", Op.cancel 1]) 0 = some 0 ∧
    confirmedCount (runOps sCap1
      [Op.register 0 "a@x.c", Op.register 0 "b@x.c", Op.cancel 1]) 0 = 1 := by
  decide

/-- C2: an interleaving of two registration requests against the capacity-1
event in which the findById snapshot of the first request is taken before the
second request runs to completion leaves two confirmed registrations,
exceeding maxAttendees = 1; the read-decide-write-increment sequence is
not serialized. -/
theorem interleaved_registrations_oversell :
    findEvent sCap1 0 = some evCap1 ∧
    evCap1.maxAttendees = some 1 ∧
    (registerForEvent sCap1 0 "b@x.c").2 =
      RegisterOutcome.created (confirmedRegistration sCap1 0 "b@x.c" evCap1) false ∧
    (registerCont (registerForEvent sCap1 0 "b@x.c").1 0 "a@x.c" evCap1).2 =
      RegisterOutcome.created
        (confirmedRegistration (registerForEvent sCap1 0 "b@x.c").1 0 "a@x.c" evCap1)
        false ∧
    confirmedCount
      (registerCont (registerForEvent sCap1 0 "b@x.c").1 0 "a@x.c" evCap1).1 0 = 2 := by
  decide

/-- C3: a registration call that passes the existence, published, open and
duplicate checks is confirmed with the counter incremented by exactly 1
when capacity is unbounded or not yet reached, and waitlisted with the
counter unchanged when the event is at or over capacity. -/
theorem registerForEvent_capacity_decision
    (s : State) (id : Nat) (email : String) (e : Event)
    (hfind : findEvent s id = some e)
    (hpub : e.status = EventStatus.published)
    (hopen : e.registrationOpen = true)
    (hdup : findExistingRegistration s id email = none)
    (hvalid : e.maxAttendees = none ∨ ∃ m, e.maxAttendees = some m ∧ 1 ≤ m) :
    ((e.maxAttendees = none ∨
        ∃ m, e.maxAttendees = some m ∧ e.currentAttendees < (m : Int)) →
      (registerForEvent s id email).2 =
        RegisterOutcome.created (confirmedRegistration s id email e) false ∧
      (confirmedRegistration s id email e).status = RegStatus.confirmed ∧
      eventCurrent (registerForEvent s id email).1 id =
        some (e.currentAttendees + 1)) ∧
    (∀ m, e.maxAttendees = some m → (m : Int) ≤ e.currentAttendees →
      (registerForEvent s id email).2 =
        RegisterOutcome.created (waitlistedRegistration s id email e) true ∧
      (waitlistedRegistration s id email e).status = RegStatus.waitlisted ∧
      eventCurrent (registerForEvent s id email).1 id =
        some e.currentAttendees) := by
  have hmain : registerForEvent s id email = registerCont s id email e := by
    simp [registerForEvent, hfind]
  have h1 : (e.status != EventStatus.published) = false := by simp [hpub]
  have h2 : (!e.registrationOpen) = false := by simp [hopen]
  have h3 : (findExistingRegistration s id email).isSome = false := by
    simp [hdup]
  constructor
  · intro hcap
    have hfull : isFull e = false := by
      rcases hcap with hnone | ⟨m, hm, hlt⟩
      · simp [isFull, hnone]
      · have hd : decide ((m : Int) ≤ e.currentAttendees) = false :=
          decide_eq_false (not_le.mpr hlt)
        simp [isFull, hm, hd]
    rw [hmain]
    simp [registerCont, h1, h2, h3, hfull, eventCurrent, confirmedRegistration,
      findEvent_incAttendees, findEvent_addRegistration, hfind]
  · intro m hm hge
    have hm1 : 1 ≤ m := by
      rcases hvalid with hnone | ⟨m2, hm2, h12⟩
      · rw [hnone] at hm; cases hm
      · rw [hm2] at hm
        injection hm with hmm
        rw [← hmm]; exact h12
    have hfull : isFull e = true := by
      simp [isFull, hm, hge, Nat.one_le_iff_ne_zero.mp hm1]
    rw [hmain]
    simp [registerCont, h1, h2, h3, hfull, eventCurrent, waitlistedRegistration,
      findEvent_addRegistration, hfind]

/-- C3 witness: the capacity decision evaluated on the concrete capacity-1
event, once below capacity (confirmed, counter 0 to 1) and once at
capacity (waitlisted, counter unchanged). -/
theorem registerForEvent_capacity_decision_witness :
    ((registerForEvent sCap1 0 "a@x.c").2 =
        RegisterOutcome.created (confirmedRegistration sCap1 0 "a@x.c" evCap1) false ∧
      (confirmedRegistration sCap1 0 "a@x.c" evCap1).status = RegStatus.confirmed ∧
      eventCurrent (registerForEvent sCap1 0 "a@x.c").1 0 =
        some (evCap1.currentAttendees + 1)) ∧
    ((registerForEvent sFull 0 "c@x.c").2 =
        RegisterOutcome.created
          (waitlistedRegistration sFull 0 "c@x.c"
            { evCap1 with currentAttendees := 1 }) true ∧
      (waitlistedRegistration sFull 0 "c@x.c"
        { evCap1 with currentAttendees := 1 }).status = RegStatus.waitlisted ∧
      eventCurrent (registerForEvent sFull 0 "c@x.c").1 0 =
        some ({ evCap1 with currentAttendees := 1 } : Event).currentAttendees) :=
  ⟨(registerForEvent_capacity_decision sCap1 0 "a@x.c" evCap1 (by decide) rfl rfl
      (by decide) (Or.inr ⟨1, rfl, le_refl 1⟩)).1 (Or.inr ⟨1, rfl, by decide⟩),
   (registerForEvent_capacity_decision sFull 0 "c@x.c"
      { evCap1 with currentAttendees := 1 } (by decide) rfl rfl (by decide)
      (Or.inr ⟨1, rfl, le_refl 1⟩)).2 1 rfl (by decide)⟩

/-- C4: cancelling the waitlisted registration of the full event succeeds
and decrements the counter from 1 to 0, although the cancelled
registration was not confirmed. -/
theorem cancel_waitlisted_decrements_counter :
    (findRegistrationById sFull 1).map (fun r => r.status) =
      some RegStatus.waitlisted ∧
    (cancelRegistration sFull 1).2 = CancelOutcome.ok ∧
    eventCurrent sFull 0 = some 1 ∧
    eventCurrent (cancelRegistration sFull 1).1 0 = some 0 := by
  decide

/-- C5: cancelling a registration whose status is already cancelled
succeeds with the ok response instead of failing, and decrements the
counter of the owning event from 3 to 2. -/
theorem cancel_already_cancelled_succeeds_and_decrements :
    (findRegistrationById sCancelled 0).map (fun r => r.status) =
      some RegStatus.cancelled ∧
    (cancelRegistration sCancelled 0).2 = CancelOutcome.ok ∧
    eventCurrent sCancelled 0 = some 3 ∧
    eventCurrent (cancelRegistration sCancelled 0).1 0 = some 2 := by
  decide

/-- C6 counterexample: a prior registration in status cancelled for the
same (event, email) pair makes a new registration attempt fail with the
already-registered conflict, refuting the claim that cancelled
registrations do not block re-registration. -/
theorem cancelled_registration_blocks_reregistration :
    (findRegistrationById sCancelled 0).map (fun r => r.status) =
      some RegStatus.cancelled ∧
    (registerForEvent sCancelled 0 "a@x.c").2 =
      RegisterOutcome.alreadyRegistered := by
  decide

/-- C6 amended: a registration call that passes the existence, published
and open checks fails with the conflict response exactly when some stored
registration, of any status including cancelled, matches the (event,
email) pair. -/
theorem registerForEvent_conflict_iff
    (s : State) (id : Nat) (email : String) (e : Event)
    (hfind : findEvent s id = some e)
    (hpub : e.status = EventStatus.published)
    (hopen : e.registrationOpen = true) :
    ((registerForEvent s id email).2 = RegisterOutcome.alreadyRegistered ↔
      ∃ r ∈ s.registrations, r.event = id ∧ r.email = email) := by
  rw [← findExistingRegistration_isSome_iff s id email]
  have hmain : registerForEvent s id email = registerCont s id email e := by
    simp [registerForEvent, hfind]
  have h1 : (e.status != EventStatus.published) = false := by simp [hpub]
  have h2 : (!e.registrationOpen) = false := by simp [hopen]
  rw [hmain]
  by_cases h : (findExistingRegistration s id email).isSome = true
  · simp [registerCont, h1, h2, h]
  · have hb : (findExistingRegistration s id email).isSome = false := by
      simpa using h
    simp only [registerCont, h1, h2, hb]
    rcases Bool.eq_false_or_eq_true (isFull e) with hf | hf <;> simp [hf]

/-- C6 witness: the conflict condition evaluated on the database whose only
registration is cancelled. -/
theorem registerForEvent_conflict_iff_witness :
    ((registerForEvent sCancelled 0 "a@x.c").2 =
        RegisterOutcome.alreadyRegistered ↔
      ∃ r ∈ sCancelled.registrations, r.event = 0 ∧ r.email = "a@x.c") :=
  registerForEvent_conflict_iff sCancelled 0 "a@x.c"
    { evCap1 with maxAttendees := some 5, currentAttendees := 3 } (by decide) rfl rfl

/-- C7: the serial trace register(a), register(b), cancel(b), cancel(a) on
the capacity-1 event drives currentAttendees to -1: the decrement has no
floor at 0. -/
theorem counter_reaches_negative :
    eventCurrent (runOps sCap1
      [Op.register 0 "a@x.c", Op.register 0 "b@x.c", Op.cancel 1, Op.cancel 0]) 0 =
      some (-1) := by
  decide

/-- C8: the generic update endpoint applies a patch containing
currentAttendees verbatim, overwriting the stored counter 0 with 42
instead of rejecting the patch or leaving the counter unchanged. -/
theorem updateEvent_overwrites_currentAttendees :
    eventCurrent sCap1 0 = some 0 ∧
    (updateEvent sCap1 0 { currentAttendees := some 42 }).2 =
      UpdateOutcome.updated { evCap1 with currentAttendees := 42 } ∧
    eventCurrent (updateEvent sCap1 0 { currentAttendees := some 42 }).1 0 =
      some 42 := by
  decide

/-- C9 counterexample: registering against the full free event creates a
waitlisted registration whose paymentStatus is pending, not paid,
refuting the claim that free-event registrations are paid at creation
whether confirmed or waitlisted. -/
theorem free_waitlisted_payment_pending :
    (findEvent sFull 0).map (fun e => e.isFree) = some true ∧
    (registerForEvent sFull 0 "c@x.c").2 =
      RegisterOutcome.created
        (waitlistedRegistration sFull 0 "c@x.c"
          { evCap1 with currentAttendees := 1 }) true ∧
    (waitlistedRegistration sFull 0 "c@x.c"
      { evCap1 with currentAttendees := 1 }).paymentStatus = PayStatus.pending ∧
    PayStatus.pending ≠ PayStatus.paid := by
  decide

/-- C9 amended: every registration created against a free event has amount
exactly 0; its paymentStatus is paid when it is created confirmed, and is
the schema default pending when it is created waitlisted. -/
theorem registerForEvent_free_amount_payment
    (s : State) (id : Nat) (email : String) (e : Event) (r : Registration)
    (w : Bool)
    (hfind : findEvent s id = some e)
    (hpub : e.status = EventStatus.published)
    (hopen : e.registrationOpen = true)
    (hdup : findExistingRegistration s id email = none)
    (hfree : e.isFree = true)
    (hout : (registerForEvent s id email).2 = RegisterOutcome.created r w) :
    r.amount = 0 ∧
      r.paymentStatus = (if w then PayStatus.pending else PayStatus.paid) := by
  have hmain : registerForEvent s id email = registerCont s id email e := by
    simp [registerForEvent, hfind]
  have h1 : (e.status != EventStatus.published) = false := by simp [hpub]
  have h2 : (!e.registrationOpen) = false := by simp [hopen]
  have h3 : (findExistingRegistration s id email).isSome = false := by
    simp [hdup]
  rw [hmain] at hout
  rcases Bool.eq_false_or_eq_true (isFull e) with hf | hf
  · simp only [registerCont, h1, h2, h3, hf] at hout
    simp only [Bool.false_eq_true, if_false, reduceIte] at hout
    obtain ⟨hr, hw⟩ := RegisterOutcome.created.inj hout.symm
    subst hr
    subst hw
    simp [confirmedRegistration, waitlistedRegistration, hfree]
  · simp only [registerCont, h1, h2, h3, hf] at hout
    simp only [Bool.false_eq_true, if_false, reduceIte] at hout
    obtain ⟨hr, hw⟩ := RegisterOutcome.created.inj hout.symm
    subst hr
    subst hw
    simp [waitlistedRegistration, confirmedRegistration, hfree]

/-- C9 amended witness: the amended payment rules evaluated on the full
free event, where the created registration is waitlisted. -/
theorem registerForEvent_free_amount_payment_witness :
    (waitlistedRegistration sFull 0 "d@x.c"
      { evCap1 with currentAttendees := 1 }).amount = 0 ∧
    (waitlistedRegistration sFull 0 "d@x.c"
      { evCap1 with currentAttendees := 1 }).paymentStatus =
      (if true then PayStatus.pending else PayStatus.paid) :=
  registerForEvent_free_amount_payment sFull 0 "d@x.c"
    { evCap1 with currentAttendees := 1 }
    (waitlistedRegistration sFull 0 "d@x.c" { evCap1 with currentAttendees := 1 })
    true (by decide) rfl rfl (by decide) rfl (by decide)

/-- C10: the public listing filters by exactly the status supplied in the
query, defaulting to published; the value all removes the status
condition entirely so events of every status are returned; and the route
carries no authentication middleware. -/
theorem getEvents_status_query
    (s : State) (st : String) (hst : st ≠ "all") :
    getEvents s (some "all") none = s.events ∧
    getEvents s none none =
      s.events.filter (fun e => e.status == EventStatus.published) ∧
    getEvents s (some st) none =
      s.events.filter (fun e => eventStatusString e.status == st) ∧
    getEventsRequiresAuth = false := by
  have hall : getEventsStatusFilter (some "all") = none := rfl
  have hpub : getEventsStatusFilter none = some "published" := rfl
  refine ⟨?_, ?_, ?_, rfl⟩
  · simp [getEvents, hall]
  · simp only [getEvents, hpub]
    refine List.filter_congr ?_
    intro e he
    cases e.status <;> rfl
  · have hsome : getEventsStatusFilter (some st) = some st := by
      simp [getEventsStatusFilter, hst]
    simp only [getEvents, hsome]
    refine List.filter_congr ?_
    intro e he
    cases e.status <;> simp

/-- C10 witness: the listing filter evaluated on a database holding a
draft, a published and a cancelled event. -/
theorem getEvents_status_query_witness :
    getEvents sMixed (some "all") none = sMixed.events ∧
    getEvents sMixed none none =
      sMixed.events.filter (fun e => e.status == EventStatus.published) ∧
    getEvents sMixed (some "draft") none =
      sMixed.events.filter (fun e => eventStatusString e.status == "draft") ∧
    getEventsRequiresAuth = false :=
  getEvents_status_query sMixed "draft" (by decide)

end PrideUnity
